import Mathlib

/-!
Verification development for the defguard IP-assignment subsystem.

The frontend side (the two assignment modals) is embedded from
src/web/src/pages/UsersOverviewPage/modals/AssignUserIPModal/AssignUserIPModal.tsx
and the AssignUserDeviceIPModal found in
src/web/src/shared/components/badges/EnterpriseBadge.tsx.
The backend side (Assignment Validator / Assignment Committer) is not part
of the supplied sources and is modelled from the specification.
-/

set_option maxHeartbeats 1000000

/-- One entry of a device's wireguard ip list as edited in either modal form:
the server-supplied read-only prefix and the user-edited suffix.
Mirrors the zod object with fields modifiable_part and network_part. -/
structure IpField where
  modifiable_part : String
  network_part : String
deriving DecidableEq, Repr

/-- One device inside one location of the per-user modal form values. -/
structure UserFormDevice where
  device_id : Nat
  ips : List IpField
deriving DecidableEq, Repr

/-- One location of the per-user modal form values. -/
structure UserFormLocation where
  location_id : Nat
  devices : List UserFormDevice
deriving DecidableEq, Repr

/-- The per-user modal form values (AssignUserIPModal FormFields). -/
structure UserFormFields where
  locations : List UserFormLocation
deriving DecidableEq, Repr

/-- One location of the per-device modal form values. -/
structure DeviceFormLocation where
  location_id : Nat
  ips : List IpField
deriving DecidableEq, Repr

/-- The per-device modal form values (AssignUserDeviceIPModal FormFields). -/
structure DeviceFormFields where
  locations : List DeviceFormLocation
deriving DecidableEq, Repr

/-- One element of the assignments array given to
api.device.assignUserDeviceIps. -/
structure Assignment where
  device_id : Nat
  location_id : Nat
  ips : List String
deriving DecidableEq, Repr

namespace UserModal

/-- The assignments array built by the per-user modal's mutationFn:
flatMap over locations and devices, keep ip entries with non-empty
modifiable_part, concatenate network_part with modifiable_part, and drop
devices whose resulting ips list is empty.  TanStack Form hands the raw
form values to the mutation, so this function receives the values exactly
as typed (the zod trim transform output is not used). -/
def assignments (formData : UserFormFields) : List Assignment :=
  (formData.locations.flatMap (fun loc =>
    loc.devices.map (fun dev =>
      { device_id := dev.device_id,
        location_id := loc.location_id,
        ips := (dev.ips.filter (fun e => e.modifiable_part.length > 0)).map
          (fun e => e.network_part ++ e.modifiable_part) }))).filter
    (fun a => a.ips.length > 0)

end UserModal

namespace DeviceModal

/-- The assignments array built by the per-device modal's mutationFn:
map over locations (the single device's id is captured from the modal
data), keep ip entries with non-empty modifiable_part, concatenate
network_part with modifiable_part, and drop locations whose resulting ips
list is empty. -/
def assignments (deviceId : Nat) (formData : DeviceFormFields) : List Assignment :=
  (formData.locations.map (fun loc =>
    { device_id := deviceId,
      location_id := loc.location_id,
      ips := (loc.ips.filter (fun ip => ip.modifiable_part.length > 0)).map
        (fun ip => ip.network_part ++ ip.modifiable_part) })).filter
    (fun a => a.ips.length > 0)

end DeviceModal

example :
    UserModal.assignments
      ⟨[⟨3, [⟨7, [⟨"5", "10.10.0."⟩, ⟨"", "10.10.0."⟩]⟩]⟩]⟩ =
      [⟨7, 3, ["10.10.0.5"]⟩] := by
  decide

/-- The body of a validate-device-ip error response as read by the modals:
e.response?.data?.msg may or may not carry a msg string. -/
structure RespData where
  msg : Option String
deriving DecidableEq, Repr

/-- An Axios HTTP response attached to an Axios error. -/
structure AxiosResponse where
  data : RespData
deriving DecidableEq, Repr

/-- Outcome of the awaited api.device.validateUserDeviceIp call, as
distinguished by the try/catch in both modals' validateIp: the request
resolved, or it threw an Axios error (whose response and body msg may each
be absent), or it threw something that is not an Axios error. -/
inductive ReqOutcome where
  | success : ReqOutcome
  | axiosError : Option AxiosResponse → ReqOutcome
  | otherError : ReqOutcome
deriving DecidableEq, Repr

/-- Stand-in for the localized fallback message
m.modal_assign_user_ip_validation_error() used by both modals; its exact
text is irrelevant to the control flow, only that it is one fixed string. -/
def modal_assign_user_ip_validation_error : String :=
  "modal_assign_user_ip_validation_error"

/-- The request payload of api.device.validateUserDeviceIp. -/
structure ValidateIpRequest where
  device_id : Nat
  ip : String
  location : Nat
deriving DecidableEq, Repr

namespace UserModal

/-- The per-user modal's validateIp callback, as a function of the request
outcome: undefined (none) when the request resolves; on an Axios error the
optional chain e.response?.data?.msg with the localized fallback; the
localized fallback for any non-Axios error. -/
def validateIp (o : ReqOutcome) : Option String :=
  match o with
  | .success => none
  | .axiosError (some resp) =>
    match resp.data.msg with
    | some msg => some msg
    | none => some modal_assign_user_ip_validation_error
  | .axiosError none => some modal_assign_user_ip_validation_error
  | .otherError => some modal_assign_user_ip_validation_error

/-- The request validateIp issues for a given field value: the ip is the
template string of network_part followed by the field value. -/
def validateIpRequest (networkPart : String) (deviceId locationId : Nat)
    (value : String) : ValidateIpRequest :=
  { device_id := deviceId, ip := networkPart ++ value, location := locationId }

end UserModal

namespace DeviceModal

/-- The per-device modal's validateIp callback; its error handling is
textually identical to the per-user modal's. -/
def validateIp (o : ReqOutcome) : Option String :=
  match o with
  | .success => none
  | .axiosError (some resp) =>
    match resp.data.msg with
    | some msg => some msg
    | none => some modal_assign_user_ip_validation_error
  | .axiosError none => some modal_assign_user_ip_validation_error
  | .otherError => some modal_assign_user_ip_validation_error

/-- The request the per-device modal's validateIp issues for a given field
value. -/
def validateIpRequest (networkPart : String) (deviceId locationId : Nat)
    (value : String) : ValidateIpRequest :=
  { device_id := deviceId, ip := networkPart ++ value, location := locationId }

end DeviceModal

/-- The validators object placed on every modifiable_part form.Field in
either modal: the debounce interval and the debounced async validator,
abstracted to the request it issues. -/
structure FieldValidatorsConfig where
  onChangeAsyncDebounceMs : Nat
  onChangeAsyncRequest : String → ValidateIpRequest

namespace UserModal

/-- The validators configured on a modifiable_part field of the per-user
modal (AssignUserIPModal, form.Field validators). -/
def fieldValidators (networkPart : String) (deviceId locationId : Nat) :
    FieldValidatorsConfig :=
  { onChangeAsyncDebounceMs := 200
    onChangeAsyncRequest := fun value =>
      validateIpRequest networkPart deviceId locationId value }

end UserModal

namespace DeviceModal

/-- The validators configured on a modifiable_part field of the per-device
modal (AssignUserDeviceIPModal, form.Field validators). -/
def fieldValidators (networkPart : String) (deviceId locationId : Nat) :
    FieldValidatorsConfig :=
  { onChangeAsyncDebounceMs := 200
    onChangeAsyncRequest := fun value =>
      validateIpRequest networkPart deviceId locationId value }

end DeviceModal

/-- JS String.prototype.trim as applied by the zod .trim() transform,
expressed structurally on the character list. -/
def jsTrim (s : String) : String :=
  ⟨((s.data.dropWhile Char.isWhitespace).reverse.dropWhile
      Char.isWhitespace).reverse⟩

example : jsTrim " " = "" := by rfl
example : jsTrim " 5 " = "5" := by rfl

/-- Output of the per-user modal's zod formSchema parse: z.string().trim()
trims each modifiable_part.  TanStack Form uses the schema only to
validate on submit; the mutation receives the raw form values, not this
transformed output. -/
def formSchemaParseUser (fd : UserFormFields) : UserFormFields :=
  { locations := fd.locations.map (fun loc =>
    { location_id := loc.location_id
      devices := loc.devices.map (fun dev =>
        { device_id := dev.device_id
          ips := dev.ips.map (fun e =>
            { modifiable_part := jsTrim e.modifiable_part
              network_part := e.network_part }) }) }) }

/-- Split a character list into the groups separated by dots. -/
def splitDots : List Char → List (List Char)
  | [] => [[]]
  | c :: rest =>
    match splitDots rest with
    | [] => [[]]
    | g :: gs => if c = '.' then [] :: g :: gs else (c :: g) :: gs

/-- Modelled from the spec: one decimal octet of an IPv4 address: one to
three digits, value at most 255. -/
def parseOctet (cs : List Char) : Option Nat :=
  if cs.length = 0 ∨ 3 < cs.length then none
  else if cs.all Char.isDigit then
    let n := cs.foldl (fun acc c => acc * 10 + (c.toNat - 48)) 0
    if n ≤ 255 then some n else none
  else none

/-- Modelled from the spec: the address-family parse used by the backend
Assignment Validator (reason MalformedAddress), for the IPv4 family: four
decimal octets joined by dots.  Addresses are 32-bit naturals. -/
def parseIPv4 (s : String) : Option Nat :=
  match splitDots s.data with
  | [a, b, c, d] =>
    match parseOctet a, parseOctet b, parseOctet c, parseOctet d with
    | some a, some b, some c, some d => some (((a * 256 + b) * 256 + c) * 256 + d)
    | _, _, _, _ => none
  | _ => none

example : parseIPv4 "10.10.0.5" = some 168427525 := by rfl
example : parseIPv4 "10.10.0.xyz" = none := by rfl

/-- Modelled from the spec: a location's CIDR range, fixed at location
creation — the (aligned) network address and the prefix length. -/
structure Cidr where
  network : Nat
  prefixLen : Nat
deriving DecidableEq, Repr

/-- Number of addresses covered by the CIDR. -/
def cidrSize (c : Cidr) : Nat := 2 ^ (32 - c.prefixLen)

/-- The broadcast address of the CIDR (its highest address). -/
def broadcastAddr (c : Cidr) : Nat := c.network + cidrSize c - 1

/-- Membership of an address in the CIDR range. -/
def inCidr (c : Cidr) (a : Nat) : Prop :=
  c.network ≤ a ∧ a < c.network + cidrSize c

instance (c : Cidr) (a : Nat) : Decidable (inCidr c a) := by
  unfold inCidr
  infer_instance

/-- Modelled from the spec: the Address Pool Registry's per-location state:
the CIDR, an optional gateway-reserved address, and the addresses currently
assigned, as (device_id, address) pairs. -/
structure Pool where
  cidr : Cidr
  gateway : Option Nat
  assigned : List (Nat × Nat)
deriving DecidableEq, Repr

/-- Modelled from the spec: an address is reserved when it is the network
address, the broadcast address, or the gateway-reserved address. -/
def isReserved (p : Pool) (a : Nat) : Bool :=
  a = p.cidr.network || a = broadcastAddr p.cidr || p.gateway = some a

/-- Modelled from the spec: the address is already assigned to a different
device in this location. -/
def collides (p : Pool) (dev a : Nat) : Bool :=
  p.assigned.any (fun e => e.2 = a && e.1 != dev)

/-- Error taxonomy of the backend validator and committer. -/
inductive VReason where
  | MalformedAddress : VReason
  | OutOfRange : VReason
  | Collision : VReason
  | ReservedAddress : VReason
  | NotFound : VReason
deriving DecidableEq, Repr

/-- Modelled from the spec: validate a parsed candidate address against a
location's pool: in range, not reserved, no collision with a different
device. -/
def validateAddr (p : Pool) (dev a : Nat) : Except VReason Unit :=
  if inCidr p.cidr a then
    if isReserved p a then .error .ReservedAddress
    else if collides p dev a then .error .Collision
    else .ok ()
  else .error .OutOfRange

/-- Modelled from the spec: the Assignment Validator's validate operation on
a candidate address string: parse (MalformedAddress on failure) then check
against the pool. -/
def validate (p : Pool) (dev : Nat) (s : String) : Except VReason Unit :=
  match parseIPv4 s with
  | none => .error .MalformedAddress
  | some a => validateAddr p dev a

/-- Modelled from the spec: validate is side-effect-free; a call returns its
result together with the (untouched) pool state, making the absence of a
reservation step explicit. -/
def validateRun (p : Pool) (dev : Nat) (s : String) :
    Except VReason Unit × Pool :=
  (validate p dev s, p)

/-- Modelled from the spec: the committer's per-location store, a list of
(location_id, pool) records. -/
structure StoreEntry where
  location_id : Nat
  pool : Pool
deriving DecidableEq, Repr

/-- The Address Pool Registry over all locations. -/
abbrev Store : Type := List StoreEntry

/-- The pool of a location, if the location exists. -/
def lookupPool (st : Store) (lid : Nat) : Option Pool :=
  (st.find? (fun e => e.location_id = lid)).map (fun e => e.pool)

/-- The (device_id, location_id, address) triples of a batch. -/
def triples (batch : List Assignment) : List (Nat × Nat × String) :=
  batch.flatMap (fun a => a.ips.map (fun s => (a.device_id, a.location_id, s)))

/-- Modelled from the spec: re-run the Assignment Validator rules for one
triple of the batch; NotFound when the location is unknown. -/
def checkTriple (st : Store) (t : Nat × Nat × String) : Except VReason Unit :=
  match lookupPool st t.2.1 with
  | none => .error .NotFound
  | some p => validate p t.1 t.2.2

/-- Modelled from the spec: two devices in the same submission must not be
given the same address in the same location. -/
def intraBatchCollision (ts : List (Nat × Nat × String)) : Bool :=
  ts.any (fun t => ts.any (fun u =>
    t.1 != u.1 && t.2.1 == u.2.1 && parseIPv4 t.2.2 == parseIPv4 u.2.2))

/-- Replace a device's assignments in a pool with the given addresses. -/
def setAssign (p : Pool) (dev : Nat) (addrs : List Nat) : Pool :=
  { p with assigned :=
      (p.assigned.filter (fun e => e.1 != dev)) ++ addrs.map (fun a => (dev, a)) }

/-- Apply one batch entry to the store. -/
def applyOne (st : Store) (a : Assignment) : Store :=
  st.map (fun e =>
    if e.location_id = a.location_id then
      { e with pool := setAssign e.pool a.device_id (a.ips.filterMap parseIPv4) }
    else e)

/-- A structured commit error identifying the rejected triple and why. -/
structure CommitError where
  device_id : Nat
  location_id : Nat
  address : String
  reason : VReason
deriving DecidableEq, Repr

/-- The first failing triple of the validation pass, if any. -/
def findFailure (st : Store) (ts : List (Nat × Nat × String)) :
    Option CommitError :=
  ts.findSome? (fun t =>
    match checkTriple st t with
    | .ok _ => none
    | .error r => some ⟨t.1, t.2.1, t.2.2, r⟩)

/-- Modelled from the spec: the Assignment Committer. Entries with an empty
address list are filtered out; every remaining triple is re-validated and
the batch is checked for internal collisions; on any failure the whole
batch is rejected, otherwise all entries are applied. -/
def commit (st : Store) (batch : List Assignment) : Except CommitError Store :=
  match findFailure st (triples (batch.filter (fun a => a.ips.length > 0))) with
  | some e => .error e
  | none =>
    if intraBatchCollision (triples (batch.filter (fun a => a.ips.length > 0))) then
      .error ⟨0, 0, "", .Collision⟩
    else
      .ok ((batch.filter (fun a => a.ips.length > 0)).foldl applyOne st)

/-- Modelled from the spec: a commit round-trip that makes the transactional
rollback explicit: on error the store is the prior store, on success the
updated one. -/
def commitRun (st : Store) (batch : List Assignment) :
    Except CommitError Unit × Store :=
  match commit st batch with
  | .ok st' => (.ok (), st')
  | .error e => (.error e, st)

/-- Provenance of an element of the per-user modal's assignments array:
it is the record built for one device of one location, and it survived the
non-empty filter. -/
theorem UserModal.mem_user_assignments {fd : UserFormFields} {a : Assignment}
    (ha : a ∈ UserModal.assignments fd) :
    0 < a.ips.length ∧
    ∃ loc ∈ fd.locations, ∃ dev ∈ loc.devices,
      a.device_id = dev.device_id ∧ a.location_id = loc.location_id ∧
      a.ips = (dev.ips.filter (fun e => e.modifiable_part.length > 0)).map
        (fun e => e.network_part ++ e.modifiable_part) := by
  unfold UserModal.assignments at ha
  rw [List.mem_filter] at ha
  obtain ⟨hmem, hlen⟩ := ha
  rw [List.mem_flatMap] at hmem
  obtain ⟨loc, hloc, hmem⟩ := hmem
  rw [List.mem_map] at hmem
  obtain ⟨dev, hdev, rfl⟩ := hmem
  refine ⟨by simpa using hlen, loc, hloc, dev, hdev, rfl, rfl, rfl⟩

/-- Provenance of an element of the per-device modal's assignments array. -/
theorem DeviceModal.mem_device_assignments {did : Nat} {fd : DeviceFormFields}
    {a : Assignment} (ha : a ∈ DeviceModal.assignments did fd) :
    0 < a.ips.length ∧
    ∃ loc ∈ fd.locations,
      a.device_id = did ∧ a.location_id = loc.location_id ∧
      a.ips = (loc.ips.filter (fun e => e.modifiable_part.length > 0)).map
        (fun e => e.network_part ++ e.modifiable_part) := by
  unfold DeviceModal.assignments at ha
  rw [List.mem_filter] at ha
  obtain ⟨hmem, hlen⟩ := ha
  rw [List.mem_map] at hmem
  obtain ⟨loc, hloc, rfl⟩ := hmem
  exact ⟨by simpa using hlen, loc, hloc, rfl, rfl, rfl⟩

/-- Provenance of one address string of the per-user payload: it is the
concatenation of the network and modifiable parts of an entry whose
modifiable_part is non-empty. -/
theorem UserModal.mem_user_assignments_ips {fd : UserFormFields} {a : Assignment}
    {s : String} (ha : a ∈ UserModal.assignments fd) (hs : s ∈ a.ips) :
    ∃ loc ∈ fd.locations, ∃ dev ∈ loc.devices, ∃ e ∈ dev.ips,
      a.device_id = dev.device_id ∧ a.location_id = loc.location_id ∧
      0 < e.modifiable_part.length ∧ s = e.network_part ++ e.modifiable_part := by
  obtain ⟨-, loc, hloc, dev, hdev, hdid, hlid, hips⟩ :=
    UserModal.mem_user_assignments ha
  rw [hips, List.mem_map] at hs
  obtain ⟨e, he, rfl⟩ := hs
  rw [List.mem_filter] at he
  exact ⟨loc, hloc, dev, hdev, e, he.1, hdid, hlid, by simpa using he.2, rfl⟩

/-- Provenance of one address string of the per-device payload. -/
theorem DeviceModal.mem_device_assignments_ips {did : Nat} {fd : DeviceFormFields}
    {a : Assignment} {s : String} (ha : a ∈ DeviceModal.assignments did fd)
    (hs : s ∈ a.ips) :
    ∃ loc ∈ fd.locations, ∃ e ∈ loc.ips,
      a.device_id = did ∧ a.location_id = loc.location_id ∧
      0 < e.modifiable_part.length ∧ s = e.network_part ++ e.modifiable_part := by
  obtain ⟨-, loc, hloc, hdid, hlid, hips⟩ := DeviceModal.mem_device_assignments ha
  rw [hips, List.mem_map] at hs
  obtain ⟨e, he, rfl⟩ := hs
  rw [List.mem_filter] at he
  exact ⟨loc, hloc, e, he.1, hdid, hlid, by simpa using he.2, rfl⟩

/-- An ip entry with non-empty modifiable_part always reaches the per-user
payload: the assignment for its device is kept and carries the
concatenated address. -/
theorem UserModal.user_assignment_mem {fd : UserFormFields}
    {loc : UserFormLocation} (hloc : loc ∈ fd.locations)
    {dev : UserFormDevice} (hdev : dev ∈ loc.devices)
    {e : IpField} (he : e ∈ dev.ips) (hne : 0 < e.modifiable_part.length) :
    ∃ a ∈ UserModal.assignments fd,
      a.device_id = dev.device_id ∧ a.location_id = loc.location_id ∧
      (e.network_part ++ e.modifiable_part) ∈ a.ips := by
  refine ⟨{ device_id := dev.device_id, location_id := loc.location_id,
            ips := (dev.ips.filter (fun x => x.modifiable_part.length > 0)).map
              (fun x => x.network_part ++ x.modifiable_part) }, ?_, rfl, rfl, ?_⟩
  · unfold UserModal.assignments
    rw [List.mem_filter]
    constructor
    · rw [List.mem_flatMap]
      exact ⟨loc, hloc, List.mem_map.mpr ⟨dev, hdev, rfl⟩⟩
    · simp only [decide_eq_true_eq]
      have hm : (e.network_part ++ e.modifiable_part) ∈
          (dev.ips.filter (fun x => x.modifiable_part.length > 0)).map
            (fun x => x.network_part ++ x.modifiable_part) :=
        List.mem_map.mpr ⟨e, List.mem_filter.mpr ⟨he, by simpa using hne⟩, rfl⟩
      exact List.length_pos.mpr (List.ne_nil_of_mem hm)
  · exact List.mem_map.mpr ⟨e, List.mem_filter.mpr ⟨he, by simpa using hne⟩, rfl⟩

/-- An ip entry with non-empty modifiable_part always reaches the
per-device payload. -/
theorem DeviceModal.device_assignment_mem {did : Nat} {fd : DeviceFormFields}
    {loc : DeviceFormLocation} (hloc : loc ∈ fd.locations)
    {e : IpField} (he : e ∈ loc.ips) (hne : 0 < e.modifiable_part.length) :
    ∃ a ∈ DeviceModal.assignments did fd,
      a.device_id = did ∧ a.location_id = loc.location_id ∧
      (e.network_part ++ e.modifiable_part) ∈ a.ips := by
  refine ⟨{ device_id := did, location_id := loc.location_id,
            ips := (loc.ips.filter (fun x => x.modifiable_part.length > 0)).map
              (fun x => x.network_part ++ x.modifiable_part) }, ?_, rfl, rfl, ?_⟩
  · unfold DeviceModal.assignments
    rw [List.mem_filter]
    constructor
    · exact List.mem_map.mpr ⟨loc, hloc, rfl⟩
    · simp only [decide_eq_true_eq]
      have hm : (e.network_part ++ e.modifiable_part) ∈
          (loc.ips.filter (fun x => x.modifiable_part.length > 0)).map
            (fun x => x.network_part ++ x.modifiable_part) :=
        List.mem_map.mpr ⟨e, List.mem_filter.mpr ⟨he, by simpa using hne⟩, rfl⟩
      exact List.length_pos.mpr (List.ne_nil_of_mem hm)
  · exact List.mem_map.mpr ⟨e, List.mem_filter.mpr ⟨he, by simpa using hne⟩, rfl⟩

/-- C1 counterexample: an entry whose modifiable_part is a single space is
empty after trimming, yet the commit payload built by the per-user
mutationFn still contains it (the filter tests the raw length): the claim
that such entries are excluded is false. -/
theorem trimmed_empty_entry_not_excluded_cex :
    jsTrim " " = "" ∧
    UserModal.assignments ⟨[⟨3, [⟨7, [⟨" ", "10.10.0."⟩]⟩]⟩]⟩ =
      [⟨7, 3, ["10.10.0. "]⟩] :=
  ⟨rfl, by decide⟩

/-- C1 (amended): for every submission of either assignment modal, the
assignments array passed to api.device.assignUserDeviceIps excludes every
IP entry whose modifiable_part is the empty string (the filter tests the
raw, untrimmed length), and excludes every (device_id, location_id) entry
whose resulting ips list is empty; every address in the payload comes from
an entry with non-empty modifiable_part. -/
theorem assignments_exclude_empty_entries :
    (∀ fd a, a ∈ UserModal.assignments fd → 0 < a.ips.length) ∧
    (∀ fd a s, a ∈ UserModal.assignments fd → s ∈ a.ips →
      ∃ loc ∈ fd.locations, ∃ dev ∈ loc.devices, ∃ e ∈ dev.ips,
        a.device_id = dev.device_id ∧ a.location_id = loc.location_id ∧
        0 < e.modifiable_part.length ∧
        s = e.network_part ++ e.modifiable_part) ∧
    (∀ did fd a, a ∈ DeviceModal.assignments did fd → 0 < a.ips.length) ∧
    (∀ did fd a s, a ∈ DeviceModal.assignments did fd → s ∈ a.ips →
      ∃ loc ∈ fd.locations, ∃ e ∈ loc.ips,
        a.device_id = did ∧ a.location_id = loc.location_id ∧
        0 < e.modifiable_part.length ∧
        s = e.network_part ++ e.modifiable_part) :=
  ⟨fun _ _ ha => (UserModal.mem_user_assignments ha).1,
   fun _ _ _ ha hs => UserModal.mem_user_assignments_ips ha hs,
   fun _ _ _ ha => (DeviceModal.mem_device_assignments ha).1,
   fun _ _ _ _ ha hs => DeviceModal.mem_device_assignments_ips ha hs⟩

/-- Concrete instance of the amended C1 statement. -/
theorem assignments_exclude_empty_entries_witness :
    (⟨7, 3, ["10.10.0.5"]⟩ : Assignment) ∈
      UserModal.assignments
        ⟨[⟨3, [⟨7, [⟨"5", "10.10.0."⟩, ⟨"", "10.10.0."⟩]⟩]⟩]⟩ ∧
    0 < (⟨7, 3, ["10.10.0.5"]⟩ : Assignment).ips.length :=
  ⟨by decide,
   assignments_exclude_empty_entries.1
     ⟨[⟨3, [⟨7, [⟨"5", "10.10.0."⟩, ⟨"", "10.10.0."⟩]⟩]⟩]⟩
     ⟨7, 3, ["10.10.0.5"]⟩ (by decide)⟩

/-- C2 counterexample: with modifiable_part "xyz" the address sent in both
the debounced validation request and the commit payload is "10.10.0.xyz",
which is not a syntactically valid IPv4 address: the concatenation does
not always form a valid address of the location's family. -/
theorem concatenated_address_invalid_cex :
    (UserModal.fieldValidators "10.10.0." 7 3).onChangeAsyncRequest "xyz" =
      ⟨7, "10.10.0.xyz", 3⟩ ∧
    UserModal.assignments ⟨[⟨3, [⟨7, [⟨"xyz", "10.10.0."⟩]⟩]⟩]⟩ =
      [⟨7, 3, ["10.10.0.xyz"]⟩] ∧
    parseIPv4 "10.10.0.xyz" = none :=
  ⟨rfl, by decide, rfl⟩

/-- C2 (amended): the full address string sent to the server — in the
debounced validation request and in the commit payload of either modal —
is exactly the character-for-character concatenation of the
server-supplied network_part and the user-edited modifiable_part; the
client does not itself guarantee that this concatenation is a valid
address (that check is the server-side validate call). -/
theorem sent_address_is_concatenation :
    (∀ np d l v,
      ((UserModal.fieldValidators np d l).onChangeAsyncRequest v).ip =
        np ++ v) ∧
    (∀ np d l v,
      ((DeviceModal.fieldValidators np d l).onChangeAsyncRequest v).ip =
        np ++ v) ∧
    (∀ fd a s, a ∈ UserModal.assignments fd → s ∈ a.ips →
      ∃ loc ∈ fd.locations, ∃ dev ∈ loc.devices, ∃ e ∈ dev.ips,
        s = e.network_part ++ e.modifiable_part) ∧
    (∀ did fd a s, a ∈ DeviceModal.assignments did fd → s ∈ a.ips →
      ∃ loc ∈ fd.locations, ∃ e ∈ loc.ips,
        s = e.network_part ++ e.modifiable_part) := by
  refine ⟨fun _ _ _ _ => rfl, fun _ _ _ _ => rfl, ?_, ?_⟩
  · intro fd a s ha hs
    obtain ⟨loc, hloc, dev, hdev, e, he, -, -, -, hcat⟩ :=
      UserModal.mem_user_assignments_ips ha hs
    exact ⟨loc, hloc, dev, hdev, e, he, hcat⟩
  · intro did fd a s ha hs
    obtain ⟨loc, hloc, e, he, -, -, -, hcat⟩ :=
      DeviceModal.mem_device_assignments_ips ha hs
    exact ⟨loc, hloc, e, he, hcat⟩

/-- Concrete instance of the amended C2 statement. -/
theorem sent_address_is_concatenation_witness :
    (⟨7, 3, ["10.10.0.5"]⟩ : Assignment) ∈
      UserModal.assignments ⟨[⟨3, [⟨7, [⟨"5", "10.10.0."⟩]⟩]⟩]⟩ ∧
    "10.10.0.5" ∈ (⟨7, 3, ["10.10.0.5"]⟩ : Assignment).ips ∧
    (∃ loc ∈ (⟨[⟨3, [⟨7, [⟨"5", "10.10.0."⟩]⟩]⟩]⟩ :
        UserFormFields).locations,
      ∃ dev ∈ loc.devices, ∃ e ∈ dev.ips,
        "10.10.0.5" = e.network_part ++ e.modifiable_part) :=
  ⟨by decide, by decide,
   sent_address_is_concatenation.2.2.1
     ⟨[⟨3, [⟨7, [⟨"5", "10.10.0."⟩]⟩]⟩]⟩ ⟨7, 3, ["10.10.0.5"]⟩
     "10.10.0.5" (by decide) (by decide)⟩

/-- C8: in both modals an entry whose modifiable_part is non-empty but
whitespace-only survives the commit filter (the filter tests the raw
length), the address sent is network_part concatenated with the
whitespace-only string, and the zod trim output differs from the raw
values the mutation actually receives. -/
theorem whitespace_only_entry_committed :
    (∀ fd loc dev e, loc ∈ (fd : UserFormFields).locations →
      dev ∈ loc.devices → e ∈ dev.ips →
      0 < e.modifiable_part.length → jsTrim e.modifiable_part = "" →
      ∃ a ∈ UserModal.assignments fd,
        a.device_id = dev.device_id ∧ a.location_id = loc.location_id ∧
        (e.network_part ++ e.modifiable_part) ∈ a.ips) ∧
    (∀ did fd loc e, loc ∈ (fd : DeviceFormFields).locations →
      e ∈ loc.ips →
      0 < e.modifiable_part.length → jsTrim e.modifiable_part = "" →
      ∃ a ∈ DeviceModal.assignments did fd,
        a.device_id = did ∧ a.location_id = loc.location_id ∧
        (e.network_part ++ e.modifiable_part) ∈ a.ips) ∧
    (∃ fd : UserFormFields,
      UserModal.assignments (formSchemaParseUser fd) ≠
        UserModal.assignments fd) := by
  refine ⟨?_, ?_, ?_⟩
  · intro fd loc dev e hloc hdev he hne _
    exact UserModal.user_assignment_mem hloc hdev he hne
  · intro did fd loc e hloc he hne _
    exact DeviceModal.device_assignment_mem hloc he hne
  · exact ⟨⟨[⟨3, [⟨7, [⟨" ", "10.10.0."⟩]⟩]⟩]⟩, by decide⟩

/-- Concrete instance of C8: the single-space modifiable_part reaches the
payload as "10.10.0. ". -/
theorem whitespace_only_entry_committed_witness :
    0 < (" " : String).length ∧ jsTrim " " = "" ∧
    (∃ a ∈ UserModal.assignments ⟨[⟨3, [⟨7, [⟨" ", "10.10.0."⟩]⟩]⟩]⟩,
      a.device_id = 7 ∧ a.location_id = 3 ∧ ("10.10.0." ++ " ") ∈ a.ips) :=
  ⟨by decide, rfl,
   whitespace_only_entry_committed.1
     ⟨[⟨3, [⟨7, [⟨" ", "10.10.0."⟩]⟩]⟩]⟩
     ⟨3, [⟨7, [⟨" ", "10.10.0."⟩]⟩]⟩
     ⟨7, [⟨" ", "10.10.0."⟩]⟩
     ⟨" ", "10.10.0."⟩
     (by decide) (by decide) (by decide) (by decide) rfl⟩

/-- The per-user form values describing the same single device and the
same locations with the same wireguard_ips, in the same order, as a
per-device form: each location holds exactly that one device. -/
def toUserFormFields (deviceId : Nat) (fd : DeviceFormFields) :
    UserFormFields :=
  ⟨fd.locations.map (fun loc => ⟨loc.location_id, [⟨deviceId, loc.ips⟩]⟩)⟩

/-- C9: for a user owning exactly one device, on corresponding form data
the per-user modal's mutationFn and the per-device modal's mutationFn
build identical assignments arrays, same entries in the same order. -/
theorem user_device_mutation_agree (did : Nat) (fd : DeviceFormFields) :
    UserModal.assignments (toUserFormFields did fd) =
      DeviceModal.assignments did fd := by
  unfold UserModal.assignments DeviceModal.assignments toUserFormFields
  congr 1
  generalize fd.locations = L
  induction L with
  | nil => rfl
  | cons l ls ih => simp only [List.map_cons, List.flatMap_cons, ih]; rfl

/-- C5: in both modals, an HTTP error response carrying a msg body is
surfaced verbatim as the field error, and the field error is undefined
(none) exactly when the validation request succeeds. -/
theorem validateIp_error_message_surfacing :
    (∀ m : String,
      UserModal.validateIp (.axiosError (some ⟨⟨some m⟩⟩)) = some m) ∧
    (∀ o, UserModal.validateIp o = none ↔ o = .success) ∧
    (∀ m : String,
      DeviceModal.validateIp (.axiosError (some ⟨⟨some m⟩⟩)) = some m) ∧
    (∀ o, DeviceModal.validateIp o = none ↔ o = .success) := by
  refine ⟨fun _ => rfl, fun o => ?_, fun _ => rfl, fun o => ?_⟩
  · rcases o with - | (- | ⟨⟨- | m⟩⟩) | - <;> simp [UserModal.validateIp]
  · rcases o with - | (- | ⟨⟨- | m⟩⟩) | - <;> simp [DeviceModal.validateIp]

/-- C6: every modifiable_part field of both modals configures the
asynchronous validator with a 200 millisecond debounce interval
(onChangeAsyncDebounceMs = 200). -/
theorem debounce_interval_is_200ms :
    ∀ (np : String) (d l : Nat),
      (UserModal.fieldValidators np d l).onChangeAsyncDebounceMs = 200 ∧
      (DeviceModal.fieldValidators np d l).onChangeAsyncDebounceMs = 200 :=
  fun _ _ _ => ⟨rfl, rfl⟩

/-- C10: both modals' validateIp is total over request outcomes — it is a
function into Option String, so no exception reaches the form — and it
returns none on success, the server msg verbatim for an Axios error whose
response body carries msg, and the fixed fallback message for an Axios
error without response, an Axios error whose body lacks msg, and any
non-Axios failure. -/
theorem validateIp_total_over_outcomes :
    (UserModal.validateIp .success = none) ∧
    (∀ m : String,
      UserModal.validateIp (.axiosError (some ⟨⟨some m⟩⟩)) = some m) ∧
    (UserModal.validateIp (.axiosError (some ⟨⟨none⟩⟩)) =
      some modal_assign_user_ip_validation_error) ∧
    (UserModal.validateIp (.axiosError none) =
      some modal_assign_user_ip_validation_error) ∧
    (UserModal.validateIp .otherError =
      some modal_assign_user_ip_validation_error) ∧
    (DeviceModal.validateIp .success = none) ∧
    (∀ m : String,
      DeviceModal.validateIp (.axiosError (some ⟨⟨some m⟩⟩)) = some m) ∧
    (DeviceModal.validateIp (.axiosError (some ⟨⟨none⟩⟩)) =
      some modal_assign_user_ip_validation_error) ∧
    (DeviceModal.validateIp (.axiosError none) =
      some modal_assign_user_ip_validation_error) ∧
    (DeviceModal.validateIp .otherError =
      some modal_assign_user_ip_validation_error) :=
  ⟨rfl, fun _ => rfl, rfl, rfl, rfl, rfl, fun _ => rfl, rfl, rfl, rfl⟩

/-- C3: the validate operation succeeds exactly when the candidate parses
to an address a that lies within the location's CIDR, a is neither the
network, broadcast, nor gateway-reserved address, and a is not already
assigned to a different device in that location. -/
theorem validate_ok_iff (p : Pool) (dev : Nat) (s : String) :
    validate p dev s = .ok () ↔
    ∃ a, parseIPv4 s = some a ∧
      (p.cidr.network ≤ a ∧ a < p.cidr.network + cidrSize p.cidr) ∧
      a ≠ p.cidr.network ∧ a ≠ broadcastAddr p.cidr ∧ p.gateway ≠ some a ∧
      (∀ e ∈ p.assigned, e.2 = a → e.1 = dev) := by
  cases h : parseIPv4 s with
  | none =>
    have hv : validate p dev s = .error .MalformedAddress := by
      unfold validate
      rw [h]
    simp [hv]
  | some a =>
    have hv : validate p dev s = validateAddr p dev a := by
      unfold validate
      rw [h]
    rw [hv]
    simp only [Option.some.injEq, exists_eq_left']
    unfold validateAddr
    split_ifs with h1 h2 h3
    · refine iff_of_false (by simp) ?_
      simp only [isReserved, Bool.or_eq_true, decide_eq_true_eq] at h2
      rintro ⟨-, hn, hb, hg, -⟩
      rcases h2 with (h2 | h2) | h2
      exacts [hn h2, hb h2, hg h2]
    · refine iff_of_false (by simp) ?_
      simp only [collides, List.any_eq_true, Bool.and_eq_true,
        decide_eq_true_eq, bne_iff_ne] at h3
      rintro ⟨-, -, -, -, hcol⟩
      obtain ⟨e, he, h2a, hne⟩ := h3
      exact hne (hcol e he h2a)
    · refine iff_of_true rfl ⟨h1, ?_, ?_, ?_, ?_⟩
      · intro heq
        exact h2 (by simp [isReserved, heq])
      · intro heq
        exact h2 (by simp [isReserved, heq])
      · intro heq
        exact h2 (by simp [isReserved, heq])
      · intro e he h2a
        by_contra hne
        apply h3
        simp only [collides, List.any_eq_true, Bool.and_eq_true,
          decide_eq_true_eq, bne_iff_ne]
        exact ⟨e, he, h2a, hne⟩
    · refine iff_of_false (by simp) ?_
      rintro ⟨hin, -⟩
      exact h1 hin

/-- C7: validate is deterministic and side-effect-free: it performs no
reservation, the pool state after a validate call is the state before it,
and a second call with the same inputs on that state returns the same
result. -/
theorem validate_idempotent_no_side_effects (p : Pool) (dev : Nat)
    (s : String) :
    (validateRun p dev s).2 = p ∧
    (validateRun (validateRun p dev s).2 dev s).1 = (validateRun p dev s).1 :=
  ⟨rfl, rfl⟩

/-- C4: if any (device, location, address) triple of the submitted batch
fails validation, commit returns an error and the store — every device's
prior assignments — is left unchanged. -/
theorem commit_all_or_nothing (st : Store) (batch : List Assignment)
    (h : ∃ t ∈ triples (batch.filter (fun a => a.ips.length > 0)),
      ∃ r, checkTriple st t = .error r) :
    (∃ e, (commitRun st batch).1 = .error e) ∧ (commitRun st batch).2 = st := by
  obtain ⟨t, ht, r, hr⟩ := h
  obtain ⟨e, hff⟩ : ∃ e,
      findFailure st (triples (batch.filter (fun a => a.ips.length > 0))) =
        some e := by
    cases hf : findFailure st
        (triples (batch.filter (fun a => a.ips.length > 0))) with
    | some e => exact ⟨e, rfl⟩
    | none =>
      unfold findFailure at hf
      rw [List.findSome?_eq_none_iff] at hf
      have h2 := hf t ht
      rw [hr] at h2
      simp at h2
  have hc : commit st batch = .error e := by
    unfold commit
    rw [hff]
  unfold commitRun
  rw [hc]
  exact ⟨⟨e, rfl⟩, rfl⟩

/-- Concrete instance of C4: assigning the network address 10.10.0.0 of
the location CIDR 10.10.0.0/24 fails with ReservedAddress and the store is
unchanged. -/
theorem commit_all_or_nothing_witness :
    ((1, 1, "10.10.0.0") ∈
        triples (([⟨1, 1, ["10.10.0.0"]⟩] : List Assignment).filter
          (fun a => a.ips.length > 0)) ∧
      checkTriple [⟨1, ⟨⟨168427520, 24⟩, none, []⟩⟩] (1, 1, "10.10.0.0") =
        .error .ReservedAddress) ∧
    (∃ e, (commitRun [⟨1, ⟨⟨168427520, 24⟩, none, []⟩⟩]
        [⟨1, 1, ["10.10.0.0"]⟩]).1 = .error e) ∧
    (commitRun [⟨1, ⟨⟨168427520, 24⟩, none, []⟩⟩]
        [⟨1, 1, ["10.10.0.0"]⟩]).2 = [⟨1, ⟨⟨168427520, 24⟩, none, []⟩⟩] :=
  ⟨⟨by decide, by rfl⟩,
   commit_all_or_nothing [⟨1, ⟨⟨168427520, 24⟩, none, []⟩⟩]
     [⟨1, 1, ["10.10.0.0"]⟩]
     ⟨(1, 1, "10.10.0.0"), by decide, .ReservedAddress, by rfl⟩⟩
